import Mathlib

/-!
Shallow embedding of `scripts/isaac_ros_nvblox_node.py`, the performance-test
launch/configuration script for the Isaac ROS NvbloxNode benchmark.

The script is flat declarative data: it builds six `ComposableNode`
descriptors, wraps them in one `ComposableNodeContainer`, and constructs one
`ROS2BenchmarkConfig` record.  The embedding mirrors the constructor calls of
the source field by field.

Modelling conventions:
  * Python float literals are carried as exact decimal values (`Rat`); the
    script performs no arithmetic on them, they are opaque payload.
  * `TestIsaacROSNvbloxNode.generate_namespace()` is a method of the external
    `ros2_benchmark` framework; its single deterministic result is threaded
    through the embedding as an arbitrary string parameter `ns`.
  * The external classes `ComposableNode`, `ComposableNodeContainer`,
    `ROS2BenchmarkConfig`, `MonitorPerformanceCalculatorsInfo`,
    `BasicPerformanceCalculator` and the enum `BenchmarkMode` are modelled as
    records/inductives holding exactly the data this script passes to them.
-/

/-- A ROS parameter value as used by this script: string, integer, exact
decimal (for Python float literals), boolean, or list of strings. -/
inductive PVal where
  | s (v : String)
  | i (v : Int)
  | f (v : Rat)
  | b (v : Bool)
  | sl (v : List String)
deriving DecidableEq, Repr

/-- Embedding of `launch_ros.descriptions.ComposableNode`: the fields this
script supplies (fields left out by the script default to `[]`). -/
structure ComposableNode where
  name : String
  package : String
  plugin : String
  namespace_ : String
  parameters : List (List (String × PVal))
  remappings : List (String × String)
  extra_arguments : List (List (String × PVal))
deriving DecidableEq, Repr

/-- Embedding of `launch_ros.actions.ComposableNodeContainer` with the fields
this script supplies. -/
structure ComposableNodeContainer where
  name : String
  namespace_ : String
  package : String
  executable : String
  prefix_ : String
  sigterm_timeout : String
  composable_node_descriptions : List ComposableNode
  output : String
deriving DecidableEq, Repr

/-- `BenchmarkMode` enum from ros2_benchmark; only the constructor this
script references is modelled. -/
inductive BenchmarkMode where
  | TIMELINE
deriving DecidableEq, Repr

/-- `BasicPerformanceCalculator` from ros2_benchmark, as constructed here:
a calculator carrying its configuration dictionary (string keys and string
values in this script). -/
structure BasicPerformanceCalculator where
  config : List (String × String)
deriving DecidableEq, Repr

/-- `MonitorPerformanceCalculatorsInfo` from ros2_benchmark: a monitor
service trigger name paired with a list of calculators. -/
structure MonitorPerformanceCalculatorsInfo where
  service_trigger_name : String
  calculators : List BasicPerformanceCalculator
deriving DecidableEq, Repr

/-- `ROS2BenchmarkConfig` from ros2_benchmark, restricted to exactly the
keyword arguments this script passes. -/
structure ROS2BenchmarkConfig where
  benchmark_name : String
  input_data_path : String
  benchmark_mode : BenchmarkMode
  enable_trial_buffer_preparation : Bool
  load_data_in_real_time : Bool
  record_data_timeline : Bool
  publish_tf_static_messages_in_set_data : Bool
  playback_message_buffer_size : Nat
  start_recording_service_timeout_sec : Nat
  start_recording_service_future_timeout_sec : Nat
  start_monitoring_service_timeout_sec : Nat
  play_messages_service_future_timeout_sec : Nat
  default_service_future_timeout_sec : Nat
  monitor_info_list : List MonitorPerformanceCalculatorsInfo
deriving DecidableEq, Repr

/-- `ROSBAG_PATH = 'datasets/r2b_dataset/r2b_hideaway'` (line 46). -/
def ROSBAG_PATH : String := "datasets/r2b_dataset/r2b_hideaway"

/-- `nvblox_node` (lines 51-80); `ns` is the result of
`TestIsaacROSNvbloxNode.generate_namespace()`. -/
def nvblox_node (ns : String) : ComposableNode :=
  { name := "NvbloxNode"
    package := "nvblox_ros"
    plugin := "nvblox::NvbloxNode"
    namespace_ := ns
    parameters := [[("global_frame", PVal.s "odom"),
                    ("voxel_size", PVal.f 0.10),
                    ("slice_height", PVal.f 0.75),
                    ("min_height", PVal.f 0.3),
                    ("max_height", PVal.f 1.0),
                    ("esdf", PVal.b true),
                    ("esdf_2d", PVal.b true),
                    ("mesh", PVal.b true),
                    ("distance_slice", PVal.b true),
                    ("tsdf_integrator_max_integration_distance_m", PVal.f 5.0),
                    ("tsdf_integrator_truncation_distance_vox", PVal.f 4.0),
                    ("tsdf_integrator_max_weight", PVal.f 20.0),
                    ("esdf_integrator_min_weight", PVal.f 2.0),
                    ("esdf_integrator_max_distance_m", PVal.f 2.0),
                    ("esdf_integrator_min_site_distance_vox", PVal.f 1.0),
                    ("max_tsdf_update_hz", PVal.f 0.0),
                    ("max_color_update_hz", PVal.f 5.0),
                    ("max_mesh_update_hz", PVal.f 0.0),
                    ("max_esdf_update_hz", PVal.f 0.0)],
                   [("use_sim_time", PVal.b false)]]
    remappings := [("depth/image", "depth"),
                   ("depth/camera_info", "depth/camera_info"),
                   ("color/image", "left/rgb"),
                   ("color/camera_info", "left/camera_info")]
    extra_arguments := [] }

/-- `data_loader_node` (lines 82-96). -/
def data_loader_node (ns : String) : ComposableNode :=
  { name := "DataLoaderNode"
    namespace_ := ns
    package := "ros2_benchmark"
    plugin := "ros2_benchmark::DataLoaderNode"
    parameters := [[("publisher_period_ms", PVal.i 1)]]
    remappings := [("d455_1_depth_image", "data_loader/depth"),
                   ("d455_1_depth_camera_info", "data_loader/depth/camera_info"),
                   ("d455_1_rgb_image", "data_loader/left/rgb"),
                   ("d455_1_rgb_camera_info", "data_loader/left/camera_info")]
    extra_arguments := [] }

/-- `visual_slam_node` (lines 98-114). -/
def visual_slam_node (ns : String) : ComposableNode :=
  { name := "VisualSlamNode"
    namespace_ := ns
    package := "isaac_ros_visual_slam"
    plugin := "isaac_ros::visual_slam::VisualSlamNode"
    remappings := [("stereo_camera/left/image", "hawk_0_left_rgb_image"),
                   ("stereo_camera/left/camera_info", "hawk_0_left_rgb_camera_info"),
                   ("stereo_camera/right/image", "hawk_0_right_rgb_image"),
                   ("stereo_camera/right/camera_info", "hawk_0_right_rgb_camera_info"),
                   ("/tf", "visual_slam/tf")]
    parameters := [[("enable_rectified_pose", PVal.b true),
                    ("denoise_input_images", PVal.b false),
                    ("rectified_images", PVal.b true)]]
    extra_arguments := [[("use_intra_process_comms", PVal.b false)]] }

/-- `playback_node` (lines 116-141). -/
def playback_node (ns : String) : ComposableNode :=
  { name := "PlaybackNode"
    namespace_ := ns
    package := "isaac_ros_benchmark"
    plugin := "isaac_ros_benchmark::NitrosPlaybackNode"
    parameters := [[("data_formats",
                     PVal.sl ["sensor_msgs/msg/Image",
                              "sensor_msgs/msg/CameraInfo",
                              "sensor_msgs/msg/Image",
                              "sensor_msgs/msg/CameraInfo",
                              "tf2_msgs/msg/TFMessage"])]]
    remappings := [("buffer/input0", "data_loader/depth"),
                   ("input0", "depth"),
                   ("buffer/input1", "data_loader/depth/camera_info"),
                   ("input1", "depth/camera_info"),
                   ("buffer/input2", "data_loader/left/rgb"),
                   ("input2", "left/rgb"),
                   ("buffer/input3", "data_loader/left/camera_info"),
                   ("input3", "left/camera_info"),
                   ("buffer/input4", "visual_slam/tf"),
                   ("input4", "/tf")]
    extra_arguments := [] }

/-- `monitor_node0` (lines 143-155). -/
def monitor_node0 (ns : String) : ComposableNode :=
  { name := "MonitorNode0"
    namespace_ := ns
    package := "isaac_ros_benchmark"
    plugin := "isaac_ros_benchmark::NitrosMonitorNode"
    parameters := [[("monitor_data_format", PVal.s "nvblox_msgs/msg/Mesh"),
                    ("monitor_index", PVal.i 0)]]
    remappings := [("output", "NvbloxNode/mesh")]
    extra_arguments := [] }

/-- `monitor_node1` (lines 157-169). -/
def monitor_node1 (ns : String) : ComposableNode :=
  { name := "MonitorNode1"
    namespace_ := ns
    package := "isaac_ros_benchmark"
    plugin := "isaac_ros_benchmark::NitrosMonitorNode"
    parameters := [[("monitor_data_format", PVal.s "nvblox_msgs/msg/DistanceMapSlice"),
                    ("monitor_index", PVal.i 1)]]
    remappings := [("output", "NvbloxNode/map_slice")]
    extra_arguments := [] }

/-- `launch_setup(container_prefix, container_sigterm_timeout)`
(lines 48-189): builds the six descriptors and returns a one-element list
holding the container.  `ns` threads the external
`generate_namespace()` result. -/
def launch_setup (ns container_prefix_ container_sigterm_timeout : String) :
    List ComposableNodeContainer :=
  [{ name := "container"
     namespace_ := ns
     package := "rclcpp_components"
     executable := "component_container_mt"
     prefix_ := container_prefix_
     sigterm_timeout := container_sigterm_timeout
     composable_node_descriptions := [data_loader_node ns,
                                      visual_slam_node ns,
                                      playback_node ns,
                                      monitor_node0 ns,
                                      monitor_node1 ns,
                                      nvblox_node ns]
     output := "screen" }]

/-- `TestIsaacROSNvbloxNode.config` (lines 199-227). -/
def TestIsaacROSNvbloxNode.config : ROS2BenchmarkConfig :=
  { benchmark_name := "Isaac ROS NvbloxNode Benchmark"
    input_data_path := ROSBAG_PATH
    benchmark_mode := BenchmarkMode.TIMELINE
    enable_trial_buffer_preparation := true
    load_data_in_real_time := true
    record_data_timeline := true
    publish_tf_static_messages_in_set_data := true
    playback_message_buffer_size := 0
    start_recording_service_timeout_sec := 20
    start_recording_service_future_timeout_sec := 25
    start_monitoring_service_timeout_sec := 30
    play_messages_service_future_timeout_sec := 25
    default_service_future_timeout_sec := 35
    monitor_info_list :=
      [{ service_trigger_name := "start_monitoring0"
         calculators := [{ config := [("report_prefix", "mesh")] }] },
       { service_trigger_name := "start_monitoring1"
         calculators := [{ config := [("report_prefix", "map_slice")] }] }] }

/-- Actions the test class performs through the external harness. -/
inductive HarnessAction where
  | run_benchmark
deriving DecidableEq, Repr

/-- `TestIsaacROSNvbloxNode.test_benchmark` (lines 229-230): its body is the
single call `self.run_benchmark()`, modelled as the trace of harness actions
it performs. -/
def TestIsaacROSNvbloxNode.test_benchmark : List HarnessAction :=
  [HarnessAction.run_benchmark]

/-- `generate_test_description()` (lines 191-192): hands `launch_setup` to the
external harness entry `generate_test_description_with_nsys`, modelled as a
function argument `gen_with_nsys`; `ns` threads the external
`generate_namespace()` result consumed inside `launch_setup`. -/
def generate_test_description {α : Type}
    (ns : String)
    (gen_with_nsys : (String → String → List ComposableNodeContainer) → α) : α :=
  gen_with_nsys (launch_setup ns)

/-- The module-level operations of this file that run after the descriptors
exist (used to state the frame property: none of them writes to a
descriptor). -/
inductive ModuleOp where
  | generate_test_description_op
  | test_benchmark_op
  | eval_config_op
deriving DecidableEq, Repr

/-- Effect of each module operation on the container state built by
`launch_setup`: `generate_test_description` only reads it and hands it on,
`test_benchmark` only calls the harness run method, and evaluating `config`
builds a fresh record; none assigns to any descriptor field. -/
def applyModuleOp (s : List ComposableNodeContainer) (op : ModuleOp) :
    List ComposableNodeContainer :=
  match op with
  | ModuleOp.generate_test_description_op => s
  | ModuleOp.test_benchmark_op => s
  | ModuleOp.eval_config_op => s

/-- Physical topic (second component) of every remapping pair of a node. -/
def remapTargets (n : ComposableNode) : List String :=
  n.remappings.map Prod.snd

/-- Look up the physical topic a node remaps a logical name to. -/
def remapLookup (n : ComposableNode) (logical : String) : Option String :=
  (n.remappings.find? (fun p => p.1 == logical)).map Prod.snd

/-- All physical topic names referenced by the remappings of a node list. -/
def physTopics (nodes : List ComposableNode) : List String :=
  (nodes.map remapTargets).flatten

/-- Every physical topic referenced in a remapping of some node of the list
is produced or consumed by some node of the list (it occurs among the
physical topics of the list). -/
def remapTargetsClosed (nodes : List ComposableNode) : Bool :=
  nodes.all (fun n =>
    (remapTargets n).all (fun t =>
      nodes.any (fun m => (remapTargets m).contains t)))

/-- Number of remapping entries of node `n` whose logical name is `t`. -/
def countLogical (n : ComposableNode) (t : String) : Nat :=
  n.remappings.countP (fun p => p.1 == t)

/-- First parameter value registered under `key` in a node's parameter
dictionaries. -/
def getParam (n : ComposableNode) (key : String) : Option PVal :=
  ((n.parameters.flatten).find? (fun p => p.1 == key)).map Prod.snd

/-- All physical topic names referenced by the remappings of the nodes of a
container list. -/
def containerPhysTopics (cs : List ComposableNodeContainer) : List String :=
  (cs.map (fun c => physTopics c.composable_node_descriptions)).flatten

/-- C1: for every pair of arguments, `launch_setup` returns a list of exactly
one element: a `ComposableNodeContainer` named `container` running
`component_container_mt`, whose composable node descriptions are exactly the
six fixed descriptors DataLoaderNode, VisualSlamNode, PlaybackNode,
MonitorNode0, MonitorNode1 and NvbloxNode, in that order, each carrying its
fixed parameter table and remapping table. -/
theorem C1_launch_setup_returns_fixed_container (ns cp st : String) :
    launch_setup ns cp st =
      [{ name := "container"
         namespace_ := ns
         package := "rclcpp_components"
         executable := "component_container_mt"
         prefix_ := cp
         sigterm_timeout := st
         composable_node_descriptions :=
           [{ name := "DataLoaderNode"
              namespace_ := ns
              package := "ros2_benchmark"
              plugin := "ros2_benchmark::DataLoaderNode"
              parameters := [[("publisher_period_ms", PVal.i 1)]]
              remappings := [("d455_1_depth_image", "data_loader/depth"),
                             ("d455_1_depth_camera_info", "data_loader/depth/camera_info"),
                             ("d455_1_rgb_image", "data_loader/left/rgb"),
                             ("d455_1_rgb_camera_info", "data_loader/left/camera_info")]
              extra_arguments := [] },
            { name := "VisualSlamNode"
              namespace_ := ns
              package := "isaac_ros_visual_slam"
              plugin := "isaac_ros::visual_slam::VisualSlamNode"
              parameters := [[("enable_rectified_pose", PVal.b true),
                              ("denoise_input_images", PVal.b false),
                              ("rectified_images", PVal.b true)]]
              remappings := [("stereo_camera/left/image", "hawk_0_left_rgb_image"),
                             ("stereo_camera/left/camera_info", "hawk_0_left_rgb_camera_info"),
                             ("stereo_camera/right/image", "hawk_0_right_rgb_image"),
                             ("stereo_camera/right/camera_info", "hawk_0_right_rgb_camera_info"),
                             ("/tf", "visual_slam/tf")]
              extra_arguments := [[("use_intra_process_comms", PVal.b false)]] },
            { name := "PlaybackNode"
              namespace_ := ns
              package := "isaac_ros_benchmark"
              plugin := "isaac_ros_benchmark::NitrosPlaybackNode"
              parameters := [[("data_formats",
                               PVal.sl ["sensor_msgs/msg/Image",
                                        "sensor_msgs/msg/CameraInfo",
                                        "sensor_msgs/msg/Image",
                                        "sensor_msgs/msg/CameraInfo",
                                        "tf2_msgs/msg/TFMessage"])]]
              remappings := [("buffer/input0", "data_loader/depth"),
                             ("input0", "depth"),
                             ("buffer/input1", "data_loader/depth/camera_info"),
                             ("input1", "depth/camera_info"),
                             ("buffer/input2", "data_loader/left/rgb"),
                             ("input2", "left/rgb"),
                             ("buffer/input3", "data_loader/left/camera_info"),
                             ("input3", "left/camera_info"),
                             ("buffer/input4", "visual_slam/tf"),
                             ("input4", "/tf")]
              extra_arguments := [] },
            { name := "MonitorNode0"
              namespace_ := ns
              package := "isaac_ros_benchmark"
              plugin := "isaac_ros_benchmark::NitrosMonitorNode"
              parameters := [[("monitor_data_format", PVal.s "nvblox_msgs/msg/Mesh"),
                              ("monitor_index", PVal.i 0)]]
              remappings := [("output", "NvbloxNode/mesh")]
              extra_arguments := [] },
            { name := "MonitorNode1"
              namespace_ := ns
              package := "isaac_ros_benchmark"
              plugin := "isaac_ros_benchmark::NitrosMonitorNode"
              parameters := [[("monitor_data_format", PVal.s "nvblox_msgs/msg/DistanceMapSlice"),
                              ("monitor_index", PVal.i 1)]]
              remappings := [("output", "NvbloxNode/map_slice")]
              extra_arguments := [] },
            { name := "NvbloxNode"
              namespace_ := ns
              package := "nvblox_ros"
              plugin := "nvblox::NvbloxNode"
              parameters := [[("global_frame", PVal.s "odom"),
                              ("voxel_size", PVal.f 0.10),
                              ("slice_height", PVal.f 0.75),
                              ("min_height", PVal.f 0.3),
                              ("max_height", PVal.f 1.0),
                              ("esdf", PVal.b true),
                              ("esdf_2d", PVal.b true),
                              ("mesh", PVal.b true),
                              ("distance_slice", PVal.b true),
                              ("tsdf_integrator_max_integration_distance_m", PVal.f 5.0),
                              ("tsdf_integrator_truncation_distance_vox", PVal.f 4.0),
                              ("tsdf_integrator_max_weight", PVal.f 20.0),
                              ("esdf_integrator_min_weight", PVal.f 2.0),
                              ("esdf_integrator_max_distance_m", PVal.f 2.0),
                              ("esdf_integrator_min_site_distance_vox", PVal.f 1.0),
                              ("max_tsdf_update_hz", PVal.f 0.0),
                              ("max_color_update_hz", PVal.f 5.0),
                              ("max_mesh_update_hz", PVal.f 0.0),
                              ("max_esdf_update_hz", PVal.f 0.0)],
                             [("use_sim_time", PVal.b false)]]
              remappings := [("depth/image", "depth"),
                             ("depth/camera_info", "depth/camera_info"),
                             ("color/image", "left/rgb"),
                             ("color/camera_info", "left/camera_info")]
              extra_arguments := [] }]
         output := "screen" }] := rfl

/-- C2: `TestIsaacROSNvbloxNode.config` contains exactly the declared fields
with the declared literal values: the benchmark name, the r2b_hideaway input
data path, TIMELINE mode, the four boolean options all true, a playback
message buffer size of 0, and the five scalar timeout values 20, 25, 30, 25
and 35 seconds. -/
theorem C2_config_literal_values :
    TestIsaacROSNvbloxNode.config =
      { benchmark_name := "Isaac ROS NvbloxNode Benchmark"
        input_data_path := "datasets/r2b_dataset/r2b_hideaway"
        benchmark_mode := BenchmarkMode.TIMELINE
        enable_trial_buffer_preparation := true
        load_data_in_real_time := true
        record_data_timeline := true
        publish_tf_static_messages_in_set_data := true
        playback_message_buffer_size := 0
        start_recording_service_timeout_sec := 20
        start_recording_service_future_timeout_sec := 25
        start_monitoring_service_timeout_sec := 30
        play_messages_service_future_timeout_sec := 25
        default_service_future_timeout_sec := 35
        monitor_info_list :=
          [{ service_trigger_name := "start_monitoring0"
             calculators := [{ config := [("report_prefix", "mesh")] }] },
           { service_trigger_name := "start_monitoring1"
             calculators := [{ config := [("report_prefix", "map_slice")] }] }] } := rfl

/-- C3: the remapping tables realize the static pipeline: DataLoaderNode's
four remapped outputs are exactly PlaybackNode's buffer inputs 0-3,
VisualSlamNode's `/tf` output feeds PlaybackNode's buffer input 4,
PlaybackNode's five playback outputs are exactly the four topics NvbloxNode
consumes via its remappings plus `/tf`, and MonitorNode0 / MonitorNode1
listen on `NvbloxNode/mesh` / `NvbloxNode/map_slice`. -/
theorem C3_remappings_realize_pipeline (ns : String) :
    remapTargets (data_loader_node ns) =
        ["data_loader/depth", "data_loader/depth/camera_info",
         "data_loader/left/rgb", "data_loader/left/camera_info"]
    ∧ remapLookup (playback_node ns) "buffer/input0" = some "data_loader/depth"
    ∧ remapLookup (playback_node ns) "buffer/input1" = some "data_loader/depth/camera_info"
    ∧ remapLookup (playback_node ns) "buffer/input2" = some "data_loader/left/rgb"
    ∧ remapLookup (playback_node ns) "buffer/input3" = some "data_loader/left/camera_info"
    ∧ remapLookup (visual_slam_node ns) "/tf" = some "visual_slam/tf"
    ∧ remapLookup (playback_node ns) "buffer/input4" = some "visual_slam/tf"
    ∧ remapLookup (playback_node ns) "input0" = some "depth"
    ∧ remapLookup (playback_node ns) "input1" = some "depth/camera_info"
    ∧ remapLookup (playback_node ns) "input2" = some "left/rgb"
    ∧ remapLookup (playback_node ns) "input3" = some "left/camera_info"
    ∧ remapLookup (playback_node ns) "input4" = some "/tf"
    ∧ remapTargets (nvblox_node ns) =
        ["depth", "depth/camera_info", "left/rgb", "left/camera_info"]
    ∧ remapLookup (monitor_node0 ns) "output" = some "NvbloxNode/mesh"
    ∧ remapLookup (monitor_node1 ns) "output" = some "NvbloxNode/map_slice" :=
  ⟨rfl, rfl, rfl, rfl, rfl, rfl, rfl, rfl, rfl, rfl, rfl, rfl, rfl, rfl, rfl⟩

/-- C4: the configuration registers exactly two monitor bindings: element `i`
pairs the trigger name `start_monitoring` followed by `i` with a one-element
calculator list holding a `BasicPerformanceCalculator` configured only with a
label string, whose report_prefix is `mesh` for `i = 0` and `map_slice` for
`i = 1`. -/
theorem C4_monitor_bindings :
    TestIsaacROSNvbloxNode.config.monitor_info_list =
        [{ service_trigger_name := "start_monitoring0"
           calculators := [{ config := [("report_prefix", "mesh")] }] },
         { service_trigger_name := "start_monitoring1"
           calculators := [{ config := [("report_prefix", "map_slice")] }] }]
    ∧ TestIsaacROSNvbloxNode.config.monitor_info_list.map
        (fun m => m.service_trigger_name)
      = (List.range 2).map (fun i => "start_monitoring" ++ toString i)
    ∧ TestIsaacROSNvbloxNode.config.monitor_info_list.map
        (fun m => m.calculators.map (fun c => c.config.map Prod.fst))
      = [[["report_prefix"]], [["report_prefix"]]] := by
  refine ⟨rfl, ?_, rfl⟩
  decide

/-- C5: every physical topic name occurring in a remapping pair of any of the
six node descriptors of the assembled container occurs among the physical
topics produced or consumed by some node of the container; in particular the
four VisualSlamNode input topics and the four DataLoaderNode output topics
are topics of the assembled graph. -/
theorem C5_remap_targets_belong_to_graph (ns cp st : String) :
    (launch_setup ns cp st).all
        (fun c => remapTargetsClosed c.composable_node_descriptions) = true
    ∧ (containerPhysTopics (launch_setup ns cp st)).contains
        "hawk_0_left_rgb_image" = true
    ∧ (containerPhysTopics (launch_setup ns cp st)).contains
        "hawk_0_left_rgb_camera_info" = true
    ∧ (containerPhysTopics (launch_setup ns cp st)).contains
        "hawk_0_right_rgb_image" = true
    ∧ (containerPhysTopics (launch_setup ns cp st)).contains
        "hawk_0_right_rgb_camera_info" = true
    ∧ (remapTargets (data_loader_node ns)).all
        (fun t => (containerPhysTopics (launch_setup ns cp st)).contains t) = true :=
  ⟨rfl, rfl, rfl, rfl, rfl, rfl⟩

/-- C6: the module exposes two harness hook entry points:
`generate_test_description` returns exactly what the harness entry
`generate_test_description_with_nsys` produces when handed `launch_setup`,
and `test_benchmark` performs exactly the single harness action
`run_benchmark`. -/
theorem C6_harness_hooks {α : Type} (ns : String)
    (gen_with_nsys : (String → String → List ComposableNodeContainer) → α) :
    generate_test_description ns gen_with_nsys = gen_with_nsys (launch_setup ns)
    ∧ TestIsaacROSNvbloxNode.test_benchmark = [HarnessAction.run_benchmark] :=
  ⟨rfl, rfl⟩

/-- C7: no operation of this file fails: for every pair of arguments
`launch_setup` completes normally returning a one-element list, the
construction of `TestIsaacROSNvbloxNode.config` completes normally, and the
configuration record carries the five timeout values through which failure
detection is delegated to the external framework. -/
theorem C7_total_no_error_paths (ns cp st : String) :
    (∃ c, launch_setup ns cp st = [c])
    ∧ (∃ cfg, TestIsaacROSNvbloxNode.config = cfg)
    ∧ TestIsaacROSNvbloxNode.config.start_recording_service_timeout_sec = 20
    ∧ TestIsaacROSNvbloxNode.config.start_recording_service_future_timeout_sec = 25
    ∧ TestIsaacROSNvbloxNode.config.start_monitoring_service_timeout_sec = 30
    ∧ TestIsaacROSNvbloxNode.config.play_messages_service_future_timeout_sec = 25
    ∧ TestIsaacROSNvbloxNode.config.default_service_future_timeout_sec = 35 :=
  ⟨⟨_, rfl⟩, ⟨_, rfl⟩, rfl, rfl, rfl, rfl, rfl⟩

/-- C8: the node descriptors are immutable once constructed: running any
sequence of the module's operations (`generate_test_description`,
`test_benchmark`, evaluating `config`) leaves the container state built by
`launch_setup` unchanged, with the six descriptors still exactly their
construction-time records. -/
theorem C8_descriptors_immutable (ns cp st : String) (ops : List ModuleOp) :
    ops.foldl applyModuleOp (launch_setup ns cp st) = launch_setup ns cp st
    ∧ (ops.foldl applyModuleOp (launch_setup ns cp st)).map
        (fun c => c.composable_node_descriptions)
      = [[data_loader_node ns, visual_slam_node ns, playback_node ns,
          monitor_node0 ns, monitor_node1 ns, nvblox_node ns]] := by
  have happ : ∀ (s : List ComposableNodeContainer) (a : ModuleOp),
      applyModuleOp s a = s := by
    intro s a
    cases a <;> rfl
  have hfold : ∀ (l : List ModuleOp) (s : List ComposableNodeContainer),
      l.foldl applyModuleOp s = s := by
    intro l
    induction l with
    | nil => intro s; rfl
    | cons a t ih =>
        intro s
        rw [List.foldl_cons, happ]
        exact ih s
  exact ⟨hfold ops _, by rw [hfold ops _]; rfl⟩

/-- C9: PlaybackNode's `data_formats` parameter lists exactly five message
types, and for every index N from 0 to 4 its remapping list contains exactly
one `buffer/inputN` entry and exactly one `inputN` entry: one recording
channel and one playback channel per declared data format. -/
theorem C9_playback_pairing_invariant (ns : String) :
    getParam (playback_node ns) "data_formats" =
        some (PVal.sl ["sensor_msgs/msg/Image", "sensor_msgs/msg/CameraInfo",
                       "sensor_msgs/msg/Image", "sensor_msgs/msg/CameraInfo",
                       "tf2_msgs/msg/TFMessage"])
    ∧ (match getParam (playback_node ns) "data_formats" with
       | some (PVal.sl l) => l.length
       | _ => 0) = 5
    ∧ (List.range 5).all (fun n =>
          countLogical (playback_node ns) ("buffer/input" ++ toString n) == 1
          && countLogical (playback_node ns) ("input" ++ toString n) == 1) = true :=
  ⟨rfl, rfl, rfl⟩

/-- C10: every one of the six composable node descriptors and the container
itself are constructed with the same namespace value — the single external
`generate_namespace()` result — so all relative remapped topic names resolve
within one shared namespace. -/
theorem C10_single_shared_namespace (ns cp st : String) :
    (launch_setup ns cp st).all
      (fun c => c.namespace_ == ns
        && c.composable_node_descriptions.all (fun n => n.namespace_ == ns)) = true := by
  simp [launch_setup, data_loader_node, visual_slam_node, playback_node,
        monitor_node0, monitor_node1, nvblox_node]
